import Mathlib

/-!
Verification of the validation-and-calculation layer of the structural
calculator (`app/validators.py`, `app/calculations.py`, `app/config.py`).

Modelling conventions (shallow embedding):
* Python floats are modelled as exact rationals `ℚ`; every value the claims
  exercise is exactly representable, and comparisons/band boundaries are the
  interesting content.  A separate domain `PyFloat` (finite / inf / -inf / nan)
  models the full float domain where non-finite values matter
  (`validate_numeric`'s contract).
* Python's `round(x, n)` (banker's rounding to `n` decimal places) is
  `pyRound`; `int(x)` (truncation toward zero) is `pyTrunc`.
* Division, which raises `ZeroDivisionError` in Python on a zero denominator,
  is the fallible `pyDiv`; functions that can raise return `Except String`.
* Python strings are `List Char`; `str.strip` is `pyStrip` (ASCII whitespace),
  `str.upper`/`str.lower` are `pyUpper`/`pyLower` (ASCII letters, which covers
  every grade / combination key in the fixed tables).
* `ValidationError` is the `Except.error` branch carrying the message string.
-/

/-- Banker's rounding of a rational to the nearest integer (ties to even),
the semantics of Python's builtin `round`. -/
def roundHalfEven (q : ℚ) : ℤ :=
  let f := Rat.floor q
  let r := q - f
  if r < 1/2 then f
  else if 1/2 < r then f + 1
  else if f % 2 = 0 then f else f + 1

/-- Python's `round(q, n)`: banker's rounding to `n` decimal places. -/
def pyRound (q : ℚ) (n : ℕ) : ℚ := (roundHalfEven (q * 10 ^ n) : ℚ) / 10 ^ n

/-- Python's `int(q)`: truncation toward zero. -/
def pyTrunc (q : ℚ) : ℤ := if 0 ≤ q then Rat.floor q else -(Rat.floor (-q))

/-- Python division: raises `ZeroDivisionError` on a zero denominator. -/
def pyDiv (a b : ℚ) : Except String ℚ :=
  if b = 0 then .error "ZeroDivisionError: float division by zero" else .ok (a / b)

theorem except_ok_bind {α β : Type} (a : α) (f : α → Except String β) :
    (Except.ok a >>= f) = f a := rfl

theorem pyDiv_ne (a b : ℚ) (h : b ≠ 0) : pyDiv a b = .ok (a / b) := by
  rw [pyDiv, if_neg h]

/-- Characters Python's `str.strip` removes (the ASCII whitespace set,
given by code point: space, tab, newline, carriage return, vertical tab,
form feed). -/
def isSpaceChar (c : Char) : Bool :=
  decide (c.toNat = 32 ∨ c.toNat = 9 ∨ c.toNat = 10 ∨ c.toNat = 13 ∨
    c.toNat = 11 ∨ c.toNat = 12)

/-- ASCII upcasing of one character, the behaviour of Python's `str.upper`
on the ASCII range. -/
def toUpperChar (c : Char) : Char :=
  if 97 ≤ c.toNat ∧ c.toNat ≤ 122 then Char.ofNat (c.toNat - 32) else c

/-- ASCII downcasing of one character, the behaviour of Python's `str.lower`
on the ASCII range. -/
def toLowerChar (c : Char) : Char :=
  if 65 ≤ c.toNat ∧ c.toNat ≤ 90 then Char.ofNat (c.toNat + 32) else c

/-- Python's `str.strip()`: drop leading and trailing whitespace. -/
def pyStrip (l : List Char) : List Char :=
  ((l.dropWhile isSpaceChar).reverse.dropWhile isSpaceChar).reverse

/-- Python's `str.upper()` on ASCII data. -/
def pyUpper (l : List Char) : List Char := l.map toUpperChar

/-- Python's `str.lower()` on ASCII data. -/
def pyLower (l : List Char) : List Char := l.map toLowerChar

theorem toNat_ofNat_small (n : ℕ) (h : n < 128) : (Char.ofNat n).toNat = n := by
  have hv : n.isValidChar := Or.inl (by omega)
  simp only [Char.ofNat, hv, dif_pos]
  rfl

theorem toUpperChar_not_lower (c : Char) :
    ¬ (97 ≤ (toUpperChar c).toNat ∧ (toUpperChar c).toNat ≤ 122) := by
  by_cases h : 97 ≤ c.toNat ∧ c.toNat ≤ 122
  · rw [toUpperChar, if_pos h, toNat_ofNat_small (c.toNat - 32) (by omega)]
    omega
  · rw [toUpperChar, if_neg h]
    exact h

theorem toUpperChar_idem (c : Char) : toUpperChar (toUpperChar c) = toUpperChar c := by
  rw [toUpperChar, if_neg (toUpperChar_not_lower c)]

theorem isSpaceChar_toUpperChar (c : Char) :
    isSpaceChar (toUpperChar c) = isSpaceChar c := by
  by_cases h : 97 ≤ c.toNat ∧ c.toNat ≤ 122
  · rw [toUpperChar, if_pos h, isSpaceChar, isSpaceChar,
      toNat_ofNat_small (c.toNat - 32) (by omega)]
    exact decide_eq_decide.mpr (by omega)
  · rw [toUpperChar, if_neg h]

theorem dropWhile_singleton_append {α : Type} (p : α → Bool) (l : List α) (a : α)
    (h : p a = false) : (l ++ [a]).dropWhile p = l.dropWhile p ++ [a] := by
  induction l with
  | nil => simp [List.dropWhile_cons, h]
  | cons b t ih =>
    simp only [List.cons_append, List.dropWhile_cons]
    cases hb : p b <;> simp [hb, ih]

theorem dropWhile_dropWhile {α : Type} (p : α → Bool) (l : List α) :
    (l.dropWhile p).dropWhile p = l.dropWhile p := by
  cases h : l.dropWhile p with
  | nil => rfl
  | cons a t =>
    have ha : p a = false := by
      have h2 := List.head?_dropWhile_not p l
      rw [h] at h2
      exact h2
    simp [List.dropWhile_cons, ha]

theorem pyStrip_no_lead (l : List Char) :
    (pyStrip l).dropWhile isSpaceChar = pyStrip l := by
  cases h : l.dropWhile isSpaceChar with
  | nil => simp [pyStrip, h]
  | cons a t =>
    have ha : isSpaceChar a = false := by
      have h2 := List.head?_dropWhile_not isSpaceChar l
      rw [h] at h2
      exact h2
    rw [pyStrip, h, List.reverse_cons, dropWhile_singleton_append _ _ _ ha,
      List.reverse_append]
    simp [List.dropWhile_cons, ha]

theorem pyStrip_idem (l : List Char) : pyStrip (pyStrip l) = pyStrip l := by
  rw [pyStrip, pyStrip_no_lead l, pyStrip, List.reverse_reverse,
    dropWhile_dropWhile, ← pyStrip]

theorem pyStrip_pyUpper (l : List Char) : pyStrip (pyUpper l) = pyUpper (pyStrip l) := by
  have hcomp : isSpaceChar ∘ toUpperChar = isSpaceChar := funext isSpaceChar_toUpperChar
  unfold pyStrip pyUpper
  rw [List.dropWhile_map, hcomp, ← List.map_reverse, List.dropWhile_map, hcomp,
    ← List.map_reverse]

theorem pyUpper_idem (l : List Char) : pyUpper (pyUpper l) = pyUpper l := by
  unfold pyUpper
  rw [List.map_map]
  exact List.map_congr_left fun a _ => toUpperChar_idem a

theorem normalize_grade_idem (l : List Char) :
    pyUpper (pyStrip (pyUpper (pyStrip l))) = pyUpper (pyStrip l) := by
  rw [pyStrip_pyUpper, pyStrip_idem, pyUpper_idem]

/-- Partial safety factor for dead load (`config.GAMMA_DL = 1.5`). -/
def GAMMA_DL : ℚ := 3/2

/-- Partial safety factor for live load (`config.GAMMA_LL = 1.5`). -/
def GAMMA_LL : ℚ := 3/2

/-- Material partial safety factor (`config.GAMMA_M0 = 1.10`). -/
def GAMMA_M0 : ℚ := 11/10

/-- Steel elastic modulus in MPa (`config.ELASTIC_MODULUS = 200000`). -/
def ELASTIC_MODULUS : ℤ := 200000

/-- One entry of the steel grade table (`config.STEEL_GRADES` values). -/
structure GradeRecord where
  yield_strength : ℤ
  ultimate_strength : ℤ
  elongation : ℤ
  description : String
deriving DecidableEq

/-- The fixed steel grade table `config.STEEL_GRADES`, keyed by grade name. -/
def STEEL_GRADES : List (List Char × GradeRecord) :=
  [ (['E', '2', '5', '0'], ⟨250, 410, 23, "Mild Steel (Standard)"⟩),
    (['E', '2', '7', '5'], ⟨275, 430, 22, "Medium Carbon Steel"⟩),
    (['E', '3', '0', '0'], ⟨300, 440, 22, "Medium Strength Steel"⟩),
    (['E', '3', '5', '0'], ⟨350, 490, 22, "High Strength Steel"⟩),
    (['E', '4', '1', '0'], ⟨410, 540, 20, "High Strength Low Alloy"⟩),
    (['E', '4', '5', '0'], ⟨450, 570, 20, "Extra High Strength"⟩),
    (['F', 'E', '4', '1', '0'], ⟨250, 410, 23, "Fe410 Grade (Legacy)"⟩),
    (['F', 'E', '4', '9', '0'], ⟨350, 490, 22, "Fe490 Grade (Legacy)"⟩) ]

/-- Keys of `config.LOAD_COMBINATIONS`: normal, wind, seismic. -/
def LOAD_COMBINATION_KEYS : List (List Char) :=
  [ ['n', 'o', 'r', 'm', 'a', 'l'],
    ['w', 'i', 'n', 'd'],
    ['s', 'e', 'i', 's', 'm', 'i', 'c'] ]

/-- Python `dict` lookup on an association list (first matching key). -/
def findKey {α β : Type} [DecidableEq α] : List (α × β) → α → Option β
  | [], _ => none
  | (k, v) :: rest, key => if k = key then some v else findKey rest key

/-- `validators.validate_numeric`, restricted to values that already parse as
finite floats (the full float domain, with non-finite values and the
string-parse branch, is `PyF.validate_numeric` below). -/
def validate_numeric (value : ℚ) (parameter_name : String)
    (allow_zero : Bool := false) (allow_negative : Bool := false) :
    Except String ℚ :=
  if allow_negative = false ∧ value < 0 then
    .error (parameter_name ++ (" cannot be negative, got " ++ toString value))
  else if allow_zero = false ∧ value = 0 then
    .error (parameter_name ++ " cannot be zero")
  else
    .ok value

/-- `validators.validate_positive`. -/
def validate_positive (value : ℚ) (parameter_name : String) : Except String ℚ :=
  validate_numeric value parameter_name false false

/-- `validators.validate_non_negative`. -/
def validate_non_negative (value : ℚ) (parameter_name : String) : Except String ℚ :=
  validate_numeric value parameter_name true false

/-- `validators.validate_load_inputs`. -/
def validate_load_inputs (dead_load live_load wind_load earthquake_load : ℚ) :
    Except String (ℚ × ℚ × ℚ × ℚ) := do
  let dl ← validate_non_negative dead_load "Dead Load"
  let ll ← validate_non_negative live_load "Live Load"
  let wl ← validate_non_negative wind_load "Wind Load"
  let eq ← validate_non_negative earthquake_load "Earthquake Load"
  return (dl, ll, wl, eq)

/-- `validators.validate_combination_type`. -/
def validate_combination_type (combination_type : List Char) :
    Except String (List Char) :=
  let combo_type := pyLower (pyStrip combination_type)
  if combo_type ∈ LOAD_COMBINATION_KEYS then .ok combo_type
  else .error ("Invalid combination type: " ++ String.mk combination_type ++
    ". Must be one of: normal, wind, seismic")

/-- `validators.validate_steel_grade`. -/
def validate_steel_grade (steel_grade : List Char) : Except String (List Char) :=
  let grade := pyUpper (pyStrip steel_grade)
  if (findKey STEEL_GRADES grade).isSome then .ok grade
  else .error ("Unknown steel grade: " ++ String.mk steel_grade ++
    ". Available grades: E250, E275, E300, E350, E410, E450, FE410, FE490")

/-- `validators.validate_safety_factor_inputs`: a dedicated zero check on the
applied stress, then the three positivity checks. -/
def validate_safety_factor_inputs (applied_stress allowable_stress : ℚ)
    (min_safety_factor : ℚ := 1) : Except String (ℚ × ℚ × ℚ) := do
  if applied_stress = 0 then
    throw "Applied stress cannot be zero (division by zero)"
  let app_stress ← validate_positive applied_stress "Applied Stress"
  let allow_stress ← validate_positive allowable_stress "Allowable Stress"
  let min_sf ← validate_positive min_safety_factor "Minimum Safety Factor"
  return (app_stress, allow_stress, min_sf)

/-- `validators.validate_utilization_inputs`. -/
def validate_utilization_inputs (applied_load section_capacity : ℚ) :
    Except String (ℚ × ℚ) := do
  let load ← validate_non_negative applied_load "Applied Load"
  let capacity ← validate_positive section_capacity "Section Capacity"
  return (load, capacity)

/-- `validators.validate_moment_inputs`. -/
def validate_moment_inputs (yield_strength plastic_modulus : ℚ) :
    Except String (ℚ × ℚ) := do
  let fy ← validate_positive yield_strength "Yield Strength"
  let zpz ← validate_positive plastic_modulus "Plastic Modulus"
  return (fy, zpz)

/-- `validators.validate_deflection_inputs`: the limit ratio is validated
positive and then coerced with `int(...)` (`pyTrunc`). -/
def validate_deflection_inputs (actual_deflection span_length : ℚ)
    (limit_ratio : ℚ := 300) : Except String (ℚ × ℚ × ℤ) := do
  let deflection ← validate_non_negative actual_deflection "Actual Deflection"
  let span ← validate_positive span_length "Span Length"
  let ratio ← validate_positive limit_ratio "Deflection Limit Ratio"
  return (deflection, span, pyTrunc ratio)

/-- `validators.validate_shear_inputs`. -/
def validate_shear_inputs (yield_strength shear_area : ℚ) :
    Except String (ℚ × ℚ) := do
  let fy ← validate_positive yield_strength "Yield Strength"
  let av ← validate_positive shear_area "Shear Area"
  return (fy, av)

/-- The `components` sub-dict of a factored-load result: the normal branch
reports factored dead/live parts, wind and seismic report the combined load
and the flat 1.2 factor. -/
inductive LoadComponents where
  | normalParts (factored_dead_load factored_live_load : ℚ)
  | combined (combined_load factor_applied : ℚ)
deriving DecidableEq

/-- Result dict of `calculations.calculate_factored_load`. -/
structure FactoredLoadResult where
  factored_load : ℚ
  combination_type : List Char
  components : LoadComponents
  unit : String
deriving DecidableEq

/-- `calculations.calculate_factored_load`. -/
def calculate_factored_load (dead_load live_load : ℚ) (wind_load : ℚ := 0)
    (earthquake_load : ℚ := 0)
    (combination_type : List Char := ['n', 'o', 'r', 'm', 'a', 'l']) :
    Except String FactoredLoadResult := do
  let (dl, ll, wl, eq) ← validate_load_inputs dead_load live_load wind_load earthquake_load
  let combo ← validate_combination_type combination_type
  if combo = ['n', 'o', 'r', 'm', 'a', 'l'] then
    let factored_dl := GAMMA_DL * dl
    let factored_ll := GAMMA_LL * ll
    return { factored_load := pyRound (factored_dl + factored_ll) 2,
             combination_type := combo,
             components := .normalParts (pyRound factored_dl 2) (pyRound factored_ll 2),
             unit := "kN" }
  else if combo = ['w', 'i', 'n', 'd'] then
    return { factored_load := pyRound (12/10 * (dl + ll + wl)) 2,
             combination_type := combo,
             components := .combined (pyRound (dl + ll + wl) 2) (12/10),
             unit := "kN" }
  else if combo = ['s', 'e', 'i', 's', 'm', 'i', 'c'] then
    return { factored_load := pyRound (12/10 * (dl + ll + eq)) 2,
             combination_type := combo,
             components := .combined (pyRound (dl + ll + eq) 2) (12/10),
             unit := "kN" }
  else
    throw "UnboundLocalError: factored_load"

/-- Result dict of `calculations.check_safety_factor`. -/
structure SafetyFactorResult where
  safety_factor : ℚ
  is_safe : Bool
  margin : ℚ
  status : String
  applied_stress : ℚ
  allowable_stress : ℚ
  minimum_required : ℚ
deriving DecidableEq

/-- `calculations.check_safety_factor`. -/
def check_safety_factor (applied_stress allowable_stress : ℚ)
    (min_safety_factor : ℚ := 1) : Except String SafetyFactorResult := do
  let (app_stress, allow_stress, min_sf) ←
    validate_safety_factor_inputs applied_stress allowable_stress min_safety_factor
  let safety_factor ← pyDiv allow_stress app_stress
  let is_safe := decide (min_sf ≤ safety_factor)
  let m ← pyDiv (safety_factor - min_sf) min_sf
  let margin := m * 100
  return { safety_factor := pyRound safety_factor 3,
           is_safe := is_safe,
           margin := pyRound margin 2,
           status := if is_safe then "SAFE" else "UNSAFE",
           applied_stress := app_stress,
           allowable_stress := allow_stress,
           minimum_required := min_sf }

/-- Result dict of `calculations.calculate_section_utilization`. -/
structure UtilizationResult where
  utilization_ratio : ℚ
  utilization_percent : ℚ
  is_adequate : Bool
  reserve_capacity : ℚ
  status : String
  applied_load : ℚ
  section_capacity : ℚ
deriving DecidableEq

/-- `calculations.calculate_section_utilization`. -/
def calculate_section_utilization (applied_load section_capacity : ℚ) :
    Except String UtilizationResult := do
  let (load, capacity) ← validate_utilization_inputs applied_load section_capacity
  let utilization_ratio ← pyDiv load capacity
  let is_adequate := decide (utilization_ratio ≤ 1)
  let reserve_capacity := max 0 ((1 - utilization_ratio) * 100)
  let status :=
    if utilization_ratio ≤ 7/10 then "UNDER-UTILIZED"
    else if utilization_ratio ≤ 1 then "ADEQUATE"
    else if utilization_ratio ≤ 11/10 then "MARGINALLY OVERSTRESSED"
    else "OVERSTRESSED"
  return { utilization_ratio := pyRound utilization_ratio 4,
           utilization_percent := pyRound (utilization_ratio * 100) 2,
           is_adequate := is_adequate,
           reserve_capacity := pyRound reserve_capacity 2,
           status := status,
           applied_load := load,
           section_capacity := capacity }

/-- Result dict of `calculations.check_deflection_serviceability`; the
`limit_ratio` field records the integer divisor shown as `L/<n>`. -/
structure DeflectionResult where
  allowable_deflection : ℚ
  actual_deflection : ℚ
  is_serviceable : Bool
  utilization : ℚ
  utilization_percent : ℚ
  status : String
  span_length : ℚ
  limit_ratio : ℤ
  unit : String
deriving DecidableEq

/-- `calculations.check_deflection_serviceability`: the allowable deflection
divides the span by the *int-coerced* limit ratio, with no zero guard on that
division (`span / limit_ratio` in the source). -/
def check_deflection_serviceability (actual_deflection span_length : ℚ)
    (deflection_limit_ratio : ℚ := 300) : Except String DeflectionResult := do
  let (deflection, span, limit_ratio) ←
    validate_deflection_inputs actual_deflection span_length deflection_limit_ratio
  let allowable ← pyDiv span (limit_ratio : ℚ)
  let is_serviceable := decide (deflection ≤ allowable)
  let utilization := if 0 < allowable then deflection / allowable else 0
  let status :=
    if is_serviceable then
      if utilization ≤ 8/10 then "WELL WITHIN LIMITS" else "WITHIN LIMITS"
    else "EXCEEDS LIMITS"
  return { allowable_deflection := pyRound allowable 2,
           actual_deflection := deflection,
           is_serviceable := is_serviceable,
           utilization := pyRound utilization 4,
           utilization_percent := pyRound (utilization * 100) 2,
           status := status,
           span_length := span,
           limit_ratio := limit_ratio,
           unit := "mm" }

/-- Result dict of `calculations.get_material_properties`: the looked-up grade
record with the `grade` and `elastic_modulus` keys added. -/
structure MaterialProps where
  yield_strength : ℤ
  ultimate_strength : ℤ
  elongation : ℤ
  description : String
  grade : List Char
  elastic_modulus : ℤ
deriving DecidableEq

/-- `calculations.get_material_properties` (value-level view; the heap-level
view with the explicit `.copy()` is `get_material_properties_heap` below). -/
def get_material_properties (steel_grade : List Char) : Except String MaterialProps := do
  let grade ← validate_steel_grade steel_grade
  match findKey STEEL_GRADES grade with
  | none => throw "KeyError"
  | some r =>
      return { yield_strength := r.yield_strength,
               ultimate_strength := r.ultimate_strength,
               elongation := r.elongation,
               description := r.description,
               grade := grade,
               elastic_modulus := ELASTIC_MODULUS }

/-- A Python float: a finite value (exact rational), an infinity, or NaN.
`float('inf')`, `float('-inf')` and `float('nan')` are all values `float()`
produces from numeric-looking strings. -/
inductive PyFloat where
  | finite (q : ℚ)
  | inf
  | neginf
  | nan
deriving DecidableEq

/-- Whether a Python float is finite (`math.isfinite`). -/
def PyFloat.isFinite : PyFloat → Bool
  | .finite _ => true
  | _ => false

/-- IEEE-754 semantics of `value < 0` on a Python float: NaN compares false
to everything, `inf < 0` is false, `-inf < 0` is true. -/
def PyFloat.ltZero : PyFloat → Bool
  | .finite q => decide (q < 0)
  | .inf => false
  | .neginf => true
  | .nan => false

/-- IEEE-754 semantics of `value == 0` on a Python float. -/
def PyFloat.eqZero : PyFloat → Bool
  | .finite q => decide (q = 0)
  | _ => false

/-- A raw input to `validate_numeric`: either something `float()` accepts
(a number, or a numeric-looking string — which includes "inf" and "nan"),
or a value `float()` rejects with ValueError/TypeError. -/
inductive RawValue where
  | num (f : PyFloat)
  | nonNumeric (s : String)
deriving DecidableEq

namespace PyF

/-- `validators.validate_numeric` over the full Python float domain: the
isinstance/`float(value)` branch, then the sign and zero checks.  The source
has no finiteness check, so `inf` and `nan` flow through the sign/zero
comparisons (which are false for both) and are returned. -/
def validate_numeric (value : RawValue) (parameter_name : String)
    (allow_zero allow_negative : Bool) : Except String PyFloat :=
  match value with
  | .nonNumeric s =>
      .error (parameter_name ++ " must be a numeric value, got " ++ s)
  | .num f =>
      if allow_negative = false ∧ f.ltZero = true then
        .error (parameter_name ++ " cannot be negative")
      else if allow_zero = false ∧ f.eqZero = true then
        .error (parameter_name ++ " cannot be zero")
      else
        .ok f

/-- `validators.validate_positive` over the full float domain. -/
def validate_positive (value : RawValue) (parameter_name : String) :
    Except String PyFloat :=
  validate_numeric value parameter_name false false

/-- `validators.validate_non_negative` over the full float domain. -/
def validate_non_negative (value : RawValue) (parameter_name : String) :
    Except String PyFloat :=
  validate_numeric value parameter_name true false

end PyF

/-- A Python dict value in a steel-grade entry: an int or a str. -/
inductive PyVal where
  | intVal (n : ℤ)
  | strVal (s : String)
deriving DecidableEq

/-- A Python dict with string keys, as an insertion-ordered association list. -/
abbrev Dict : Type := List (String × PyVal)

/-- Python dict assignment `d[k] = v`: replace in place if the key exists,
else append. -/
def dictSet : Dict → String → PyVal → Dict
  | [], k, v => [(k, v)]
  | (k0, v0) :: rest, k, v =>
      if k0 = k then (k, v) :: rest else (k0, v0) :: dictSet rest k v

/-- Python dict read `d[k]` (first match). -/
def dictGet (d : Dict) (k : String) : Option PyVal := findKey d k

/-- The heap of allocated dicts; a reference is an index into `cells`. -/
structure Heap where
  cells : List Dict
deriving DecidableEq

/-- The dict object backing one steel-grade entry. -/
def gradeDict (r : GradeRecord) : Dict :=
  [("yield_strength", .intVal r.yield_strength),
   ("ultimate_strength", .intVal r.ultimate_strength),
   ("elongation", .intVal r.elongation),
   ("description", .strVal r.description)]

/-- The process-start heap: one dict object per `STEEL_GRADES` entry. -/
def initHeap : Heap := ⟨STEEL_GRADES.map (fun p => gradeDict p.2)⟩

/-- `config.STEEL_GRADES` as a map from grade name to the reference of the
entry's dict object in `initHeap` (entry `i` of the table lives at cell `i`). -/
def gradeTable : List (List Char × ℕ) :=
  [ (['E', '2', '5', '0'], 0), (['E', '2', '7', '5'], 1),
    (['E', '3', '0', '0'], 2), (['E', '3', '5', '0'], 3),
    (['E', '4', '1', '0'], 4), (['E', '4', '5', '0'], 5),
    (['F', 'E', '4', '1', '0'], 6), (['F', 'E', '4', '9', '0'], 7) ]

/-- Heap-level view of `calculations.get_material_properties`:
`STEEL_GRADES[grade].copy()` allocates a fresh dict (appended to the heap),
then `properties['grade'] = grade` and `properties['elastic_modulus'] = ...`
mutate only that fresh cell.  Returns the reference of the fresh dict and the
new heap. -/
def get_material_properties_heap (h : Heap) (steel_grade : List Char) :
    Except String (ℕ × Heap) :=
  match validate_steel_grade steel_grade with
  | .error e => .error e
  | .ok grade =>
    match findKey gradeTable grade with
    | none => .error "KeyError"
    | some ref =>
      match h.cells[ref]? with
      | none => .error "dangling reference"
      | some d =>
        let d1 := dictSet (dictSet d "grade" (.strVal (String.mk grade)))
          "elastic_modulus" (.intVal ELASTIC_MODULUS)
        .ok (h.cells.length, ⟨h.cells ++ [d1]⟩)

theorem except_error_bind {α β : Type} (e : String) (f : α → Except String β) :
    ((Except.error e : Except String α) >>= f) = .error e := rfl

theorem except_pure_bind {α β : Type} (a : α) (f : α → Except String β) :
    ((pure a : Except String α) >>= f) = f a := rfl

theorem validate_non_negative_ok (v : ℚ) (p : String) (h : 0 ≤ v) :
    validate_non_negative v p = .ok v := by
  unfold validate_non_negative validate_numeric
  split_ifs with h1 h2
  · exact absurd h1.2 (not_lt.mpr h)
  · exact absurd h2.1 (by simp)
  · rfl

theorem validate_positive_ok (v : ℚ) (p : String) (h : 0 < v) :
    validate_positive v p = .ok v := by
  unfold validate_positive validate_numeric
  split_ifs with h1 h2
  · exact absurd h1.2 (not_lt.mpr h.le)
  · exact absurd h2.2 (ne_of_gt h)
  · rfl

theorem validate_positive_err (v : ℚ) (p : String) (h : v ≤ 0) :
    ∃ s, validate_positive v p = .error (p ++ s) := by
  rcases lt_or_eq_of_le h with hlt | heq
  · refine ⟨" cannot be negative, got " ++ toString v, ?_⟩
    unfold validate_positive validate_numeric
    rw [if_pos ⟨rfl, hlt⟩]
  · subst heq
    refine ⟨" cannot be zero", ?_⟩
    unfold validate_positive validate_numeric
    rw [if_neg, if_pos ⟨rfl, rfl⟩]
    rintro ⟨-, hneg⟩
    exact lt_irrefl 0 hneg

/-- Claim C1 (code_bug): `validate_deflection_inputs` accepts the positive
ratio 0.5 but coerces it with `int(...)` to the divisor 0, and
`check_deflection_serviceability` then evaluates `span / limit_ratio`, a
division by zero — the spec's "all division-by-zero paths are precluded
upstream by validation" fails for every accepted ratio strictly between
0 and 1. -/
theorem C1_deflection_division_by_zero :
    validate_deflection_inputs 10 6000 (1/2) = .ok (10, 6000, 0) ∧
    check_deflection_serviceability 10 6000 (1/2) =
      .error "ZeroDivisionError: float division by zero" := by
  have h05 : (0:ℚ) < 1/2 := by norm_num
  have h1 : validate_non_negative 10 "Actual Deflection" = .ok 10 :=
    validate_non_negative_ok _ _ (by norm_num)
  have h2 : validate_positive 6000 "Span Length" = .ok 6000 :=
    validate_positive_ok _ _ (by norm_num)
  have h3 : validate_positive (1/2) "Deflection Limit Ratio" = .ok (1/2) :=
    validate_positive_ok _ _ h05
  have htr : pyTrunc (1/2) = 0 := by
    rw [pyTrunc, if_pos h05.le]
    norm_num [Rat.floor_def']
  have hv : validate_deflection_inputs 10 6000 (1/2) = .ok (10, 6000, 0) := by
    simp only [validate_deflection_inputs, h1, h2, h3, except_ok_bind, htr]
    rfl
  refine ⟨hv, ?_⟩
  simp only [check_deflection_serviceability, hv, except_ok_bind]
  simp [pyDiv, except_error_bind]

/-- Specification of claim C2: on validated inputs the utilization ratio is
`applied/capacity` (reported rounded to 4 places) and the status bands are
closed on their upper boundary. -/
def utilizationBands (applied_load section_capacity : ℚ) : Prop :=
  ∃ r, calculate_section_utilization applied_load section_capacity = .ok r ∧
    r.utilization_ratio = pyRound (applied_load / section_capacity) 4 ∧
    (applied_load / section_capacity ≤ 7/10 → r.status = "UNDER-UTILIZED") ∧
    (7/10 < applied_load / section_capacity → applied_load / section_capacity ≤ 1 →
      r.status = "ADEQUATE") ∧
    (1 < applied_load / section_capacity → applied_load / section_capacity ≤ 11/10 →
      r.status = "MARGINALLY OVERSTRESSED") ∧
    (11/10 < applied_load / section_capacity → r.status = "OVERSTRESSED")

/-- Claim C2 (confirmed): for every applied_load ≥ 0 and section_capacity > 0
accepted by validation, `calculate_section_utilization` classifies
ratio = applied/capacity with bands closed on their upper boundary:
ratio ≤ 0.7 UNDER-UTILIZED, 0.7 < ratio ≤ 1.0 ADEQUATE (so ratio = 1.0 is
ADEQUATE), 1.0 < ratio ≤ 1.1 MARGINALLY OVERSTRESSED (so ratio = 1.1 is
MARGINALLY OVERSTRESSED), ratio > 1.1 OVERSTRESSED. -/
theorem calculate_section_utilization_eq (load capacity : ℚ) (h0 : 0 ≤ load)
    (hc : 0 < capacity) : calculate_section_utilization load capacity = .ok
      { utilization_ratio := pyRound (load / capacity) 4,
        utilization_percent := pyRound ((load / capacity) * 100) 2,
        is_adequate := decide (load / capacity ≤ 1),
        reserve_capacity := pyRound (max 0 ((1 - load / capacity) * 100)) 2,
        status :=
          if load / capacity ≤ 7/10 then "UNDER-UTILIZED"
          else if load / capacity ≤ 1 then "ADEQUATE"
          else if load / capacity ≤ 11/10 then "MARGINALLY OVERSTRESSED"
          else "OVERSTRESSED",
        applied_load := load,
        section_capacity := capacity } := by
  have hval : validate_utilization_inputs load capacity = .ok (load, capacity) := by
    simp only [validate_utilization_inputs, validate_non_negative_ok _ _ h0,
      except_ok_bind, validate_positive_ok _ _ hc]
    rfl
  have hdiv : pyDiv load capacity = .ok (load / capacity) := pyDiv_ne _ _ (ne_of_gt hc)
  simp only [calculate_section_utilization, hval, except_ok_bind, hdiv]
  rfl

theorem C2_utilization_bands (load capacity : ℚ) (h0 : 0 ≤ load)
    (hc : 0 < capacity) : utilizationBands load capacity := by
  refine ⟨_, calculate_section_utilization_eq load capacity h0 hc, rfl, ?_, ?_, ?_, ?_⟩
  · intro h
    dsimp only
    rw [if_pos h]
  · intro hgt hle
    dsimp only
    rw [if_neg (not_le.mpr hgt), if_pos hle]
  · intro hgt hle
    dsimp only
    rw [if_neg (not_le.mpr (lt_trans (by norm_num) hgt)),
      if_neg (not_le.mpr hgt), if_pos hle]
  · intro hgt
    dsimp only
    rw [if_neg (not_le.mpr (lt_trans (by norm_num) hgt)),
      if_neg (not_le.mpr (lt_trans (by norm_num) hgt)),
      if_neg (not_le.mpr hgt)]

/-- Witness for C2 at the boundary input ratio = 11/10 = 1.1 (status
MARGINALLY OVERSTRESSED). -/
theorem C2_utilization_bands_witness : utilizationBands 11 10 :=
  C2_utilization_bands 11 10 (by norm_num) (by norm_num)

/-- Specification of claim C3 (generic part): is_safe holds exactly when
allowable/applied ≥ minimum (equality safe), status mirrors is_safe, the
reported factor is rounded to 3 places and the margin is
round(((allowable/applied − min)/min)·100, 2). -/
def safetyFactorSpec (applied allowable min_sf : ℚ) : Prop :=
  ∃ r, check_safety_factor applied allowable min_sf = .ok r ∧
    (r.is_safe = true ↔ min_sf ≤ allowable / applied) ∧
    (r.status = "SAFE" ↔ r.is_safe = true) ∧
    r.safety_factor = pyRound (allowable / applied) 3 ∧
    r.margin = pyRound ((allowable / applied - min_sf) / min_sf * 100) 2

/-- Specification of claim C3 (concrete part): applied=200, allowable=150,
min=1 gives factor 0.75, UNSAFE, margin −25.0. -/
def safetyFactorInstance : Prop :=
  ∃ r, check_safety_factor 200 150 1 = .ok r ∧
    r.safety_factor = 3/4 ∧ r.is_safe = false ∧ r.status = "UNSAFE" ∧
    r.margin = -25

theorem check_safety_factor_eq (applied allowable min_sf : ℚ) (h1 : 0 < applied)
    (h2 : 0 < allowable) (h3 : 0 < min_sf) :
    check_safety_factor applied allowable min_sf = .ok
      { safety_factor := pyRound (allowable / applied) 3,
        is_safe := decide (min_sf ≤ allowable / applied),
        margin := pyRound ((allowable / applied - min_sf) / min_sf * 100) 2,
        status := if decide (min_sf ≤ allowable / applied) then "SAFE" else "UNSAFE",
        applied_stress := applied,
        allowable_stress := allowable,
        minimum_required := min_sf } := by
  have hval : validate_safety_factor_inputs applied allowable min_sf =
      .ok (applied, allowable, min_sf) := by
    simp only [validate_safety_factor_inputs, if_neg (ne_of_gt h1),
      validate_positive_ok _ _ h1, validate_positive_ok _ _ h2,
      validate_positive_ok _ _ h3, except_ok_bind]
    rfl
  have hsf : pyDiv allowable applied = .ok (allowable / applied) :=
    pyDiv_ne _ _ (ne_of_gt h1)
  have hm : pyDiv (allowable / applied - min_sf) min_sf =
      .ok ((allowable / applied - min_sf) / min_sf) := pyDiv_ne _ _ (ne_of_gt h3)
  simp only [check_safety_factor, hval, except_ok_bind, hsf, hm]
  rfl

/-- Claim C3 (confirmed): for all validated positive inputs,
`check_safety_factor` returns is_safe ⇔ allowable/applied ≥ minimum
(equality safe, status SAFE exactly when safe) with
margin = round(((allowable/applied − min)/min)·100, 2); and the instance
(200, 150, 1) yields factor 0.75, UNSAFE, margin −25. -/
theorem C3_safety_factor (applied allowable min_sf : ℚ) (h1 : 0 < applied)
    (h2 : 0 < allowable) (h3 : 0 < min_sf) :
    safetyFactorSpec applied allowable min_sf ∧ safetyFactorInstance := by
  constructor
  · refine ⟨_, check_safety_factor_eq applied allowable min_sf h1 h2 h3,
      ?_, ?_, rfl, rfl⟩
    · dsimp only
      exact decide_eq_true_iff
    · dsimp only
      cases hd : decide (min_sf ≤ allowable / applied) <;> simp
  · have hc := check_safety_factor_eq 200 150 1 (by norm_num) (by norm_num) (by norm_num)
    refine ⟨_, hc, ?_, ?_, ?_, ?_⟩
    · dsimp only
      norm_num [pyRound, roundHalfEven, Rat.floor_def']
    · dsimp only
      norm_num
    · dsimp only
      norm_num
    · dsimp only
      norm_num [pyRound, roundHalfEven, Rat.floor_def']

/-- Witness for C3 at applied=4, allowable=4, min=1: the boundary
allowable/applied = minimum counts as safe. -/
theorem C3_safety_factor_witness : safetyFactorSpec 4 4 1 ∧ safetyFactorInstance :=
  C3_safety_factor 4 4 1 (by norm_num) (by norm_num) (by norm_num)

theorem validate_load_inputs_ok (dl ll wl eq : ℚ) (h1 : 0 ≤ dl) (h2 : 0 ≤ ll)
    (h3 : 0 ≤ wl) (h4 : 0 ≤ eq) :
    validate_load_inputs dl ll wl eq = .ok (dl, ll, wl, eq) := by
  simp only [validate_load_inputs, validate_non_negative_ok _ _ h1,
    validate_non_negative_ok _ _ h2, validate_non_negative_ok _ _ h3,
    validate_non_negative_ok _ _ h4, except_ok_bind]
  rfl

theorem calculate_factored_load_normal (dl ll wl eq : ℚ) (h1 : 0 ≤ dl)
    (h2 : 0 ≤ ll) (h3 : 0 ≤ wl) (h4 : 0 ≤ eq) :
    calculate_factored_load dl ll wl eq ['n', 'o', 'r', 'm', 'a', 'l'] = .ok
      { factored_load := pyRound (3/2 * dl + 3/2 * ll) 2,
        combination_type := ['n', 'o', 'r', 'm', 'a', 'l'],
        components := .normalParts (pyRound (3/2 * dl) 2) (pyRound (3/2 * ll) 2),
        unit := "kN" } := by
  have hcombo : validate_combination_type ['n', 'o', 'r', 'm', 'a', 'l'] =
      .ok ['n', 'o', 'r', 'm', 'a', 'l'] := by rfl
  simp only [calculate_factored_load, validate_load_inputs_ok dl ll wl eq h1 h2 h3 h4,
    except_ok_bind, hcombo, GAMMA_DL, GAMMA_LL]
  simp [pure, Except.pure]

theorem calculate_factored_load_wind (dl ll wl eq : ℚ) (h1 : 0 ≤ dl)
    (h2 : 0 ≤ ll) (h3 : 0 ≤ wl) (h4 : 0 ≤ eq) :
    calculate_factored_load dl ll wl eq ['w', 'i', 'n', 'd'] = .ok
      { factored_load := pyRound (12/10 * (dl + ll + wl)) 2,
        combination_type := ['w', 'i', 'n', 'd'],
        components := .combined (pyRound (dl + ll + wl) 2) (12/10),
        unit := "kN" } := by
  have hcombo : validate_combination_type ['w', 'i', 'n', 'd'] =
      .ok ['w', 'i', 'n', 'd'] := by rfl
  simp only [calculate_factored_load, validate_load_inputs_ok dl ll wl eq h1 h2 h3 h4,
    except_ok_bind, hcombo]
  simp [pure, Except.pure]

theorem calculate_factored_load_seismic (dl ll wl eq : ℚ) (h1 : 0 ≤ dl)
    (h2 : 0 ≤ ll) (h3 : 0 ≤ wl) (h4 : 0 ≤ eq) :
    calculate_factored_load dl ll wl eq ['s', 'e', 'i', 's', 'm', 'i', 'c'] = .ok
      { factored_load := pyRound (12/10 * (dl + ll + eq)) 2,
        combination_type := ['s', 'e', 'i', 's', 'm', 'i', 'c'],
        components := .combined (pyRound (dl + ll + eq) 2) (12/10),
        unit := "kN" } := by
  have hcombo : validate_combination_type ['s', 'e', 'i', 's', 'm', 'i', 'c'] =
      .ok ['s', 'e', 'i', 's', 'm', 'i', 'c'] := by rfl
  simp only [calculate_factored_load, validate_load_inputs_ok dl ll wl eq h1 h2 h3 h4,
    except_ok_bind, hcombo]
  simp [pure, Except.pure]

/-- Specification of claim C4 (generic part): the three combination formulas,
each rounded to two places. -/
def factoredLoadSpec (dl ll wl eq : ℚ) : Prop :=
  (∃ r, calculate_factored_load dl ll wl eq ['n', 'o', 'r', 'm', 'a', 'l'] = .ok r ∧
    r.factored_load = pyRound (3/2 * dl + 3/2 * ll) 2) ∧
  (∃ r, calculate_factored_load dl ll wl eq ['w', 'i', 'n', 'd'] = .ok r ∧
    r.factored_load = pyRound (12/10 * (dl + ll + wl)) 2) ∧
  (∃ r, calculate_factored_load dl ll wl eq ['s', 'e', 'i', 's', 'm', 'i', 'c'] = .ok r ∧
    r.factored_load = pyRound (12/10 * (dl + ll + eq)) 2)

/-- Specification of claim C4 (concrete part): (100, 50, normal) gives 225.0
and (100, 50, wind 30, wind) gives 216.0. -/
def factoredLoadInstances : Prop :=
  (∃ r, calculate_factored_load 100 50 0 0 ['n', 'o', 'r', 'm', 'a', 'l'] = .ok r ∧
    r.factored_load = 225) ∧
  (∃ r, calculate_factored_load 100 50 30 0 ['w', 'i', 'n', 'd'] = .ok r ∧
    r.factored_load = 216)

/-- Claim C4 (confirmed): for all validated loads ≥ 0,
`calculate_factored_load` returns round(1.5·DL + 1.5·LL, 2) for 'normal',
round(1.2·(DL+LL+WL), 2) for 'wind' and round(1.2·(DL+LL+EQ), 2) for
'seismic'; in particular (100, 50, 'normal') gives 225.0 and
(100, 50, wind=30, 'wind') gives 216.0. -/
theorem C4_factored_load (dl ll wl eq : ℚ) (h1 : 0 ≤ dl) (h2 : 0 ≤ ll)
    (h3 : 0 ≤ wl) (h4 : 0 ≤ eq) :
    factoredLoadSpec dl ll wl eq ∧ factoredLoadInstances := by
  refine ⟨⟨⟨_, calculate_factored_load_normal dl ll wl eq h1 h2 h3 h4, rfl⟩,
    ⟨_, calculate_factored_load_wind dl ll wl eq h1 h2 h3 h4, rfl⟩,
    ⟨_, calculate_factored_load_seismic dl ll wl eq h1 h2 h3 h4, rfl⟩⟩, ?_, ?_⟩
  · refine ⟨_, calculate_factored_load_normal 100 50 0 0 (by norm_num) (by norm_num)
      (by norm_num) (by norm_num), ?_⟩
    dsimp only
    norm_num [pyRound, roundHalfEven, Rat.floor_def']
  · refine ⟨_, calculate_factored_load_wind 100 50 30 0 (by norm_num) (by norm_num)
      (by norm_num) (by norm_num), ?_⟩
    dsimp only
    norm_num [pyRound, roundHalfEven, Rat.floor_def']

/-- Witness for C4 at loads (1, 2, 3, 4). -/
theorem C4_factored_load_witness : factoredLoadSpec 1 2 3 4 ∧ factoredLoadInstances :=
  C4_factored_load 1 2 3 4 (by norm_num) (by norm_num) (by norm_num) (by norm_num)

theorem PyF.validate_numeric_finite_total (q : ℚ) (pname : String) (az an : Bool) :
    PyF.validate_numeric (.num (.finite q)) pname az an = .ok (.finite q) ∨
      ∃ e, PyF.validate_numeric (.num (.finite q)) pname az an = .error e := by
  unfold PyF.validate_numeric
  dsimp only
  split_ifs
  · exact Or.inr ⟨_, rfl⟩
  · exact Or.inr ⟨_, rfl⟩
  · exact Or.inl rfl

/-- Claim C5, counterexample: `validate_numeric` has no finiteness check, so
the value `float('inf')` — which `float()` parses from a numeric-looking
string — is neither negative nor zero under IEEE comparisons and is returned
as-is, a non-finite return the claim rules out. -/
theorem C5_counterexample :
    PyF.validate_numeric (.num .inf) "Load" false false = .ok .inf ∧
    PyFloat.isFinite .inf = false := ⟨rfl, rfl⟩

/-- Claim C5 as amended: every numeric validation function returns a
floating-point value or raises ValidationError, and finite inputs come back
finite (the input itself) when accepted; but finiteness is not enforced —
`inf` passes the default checks and `nan` passes all flag combinations, each
returned unchanged. -/
theorem C5_validators_total (q : ℚ) (pname : String) (az an : Bool) :
    (PyF.validate_numeric (.num (.finite q)) pname az an = .ok (.finite q) ∨
      ∃ e, PyF.validate_numeric (.num (.finite q)) pname az an = .error e) ∧
    (PyF.validate_positive (.num (.finite q)) pname = .ok (.finite q) ∨
      ∃ e, PyF.validate_positive (.num (.finite q)) pname = .error e) ∧
    (PyF.validate_non_negative (.num (.finite q)) pname = .ok (.finite q) ∨
      ∃ e, PyF.validate_non_negative (.num (.finite q)) pname = .error e) ∧
    (∃ e, PyF.validate_numeric (.nonNumeric "abc") pname az an = .error e) ∧
    PyF.validate_numeric (.num .inf) pname false false = .ok .inf ∧
    PyF.validate_numeric (.num .nan) pname az an = .ok .nan := by
  refine ⟨PyF.validate_numeric_finite_total q pname az an,
    PyF.validate_numeric_finite_total q pname false false,
    PyF.validate_numeric_finite_total q pname true false,
    ⟨_, rfl⟩, rfl, ?_⟩
  unfold PyF.validate_numeric
  dsimp only [PyFloat.ltZero, PyFloat.eqZero]
  rw [if_neg, if_neg]
  · rintro ⟨-, h⟩
    exact Bool.false_ne_true h
  · rintro ⟨-, h⟩
    exact Bool.false_ne_true h

/-- Claim C6, counterexample: the claim says the safety_factor ratio is
rounded to 4 decimal places, but `check_safety_factor(3, 1, 1)` reports
round(1/3, 3) = 0.333, which differs from round(1/3, 4) = 0.3333. -/
theorem C6_counterexample :
    (check_safety_factor 3 1 1).map SafetyFactorResult.safety_factor =
      .ok (333/1000) ∧
    pyRound ((1:ℚ)/3) 4 ≠ 333/1000 := by
  constructor
  · rw [check_safety_factor_eq 3 1 1 (by norm_num) (by norm_num) (by norm_num)]
    dsimp [Except.map]
    norm_num [pyRound, roundHalfEven, Rat.floor_def']
  · norm_num [pyRound, roundHalfEven, Rat.floor_def']

/-- Specification of claim C6 as amended: fixed rounding precisions per
field — utilization ratios to 4 places, percentages / margins / reserves to
2 places, and the safety factor to 3 places (not 4). -/
def roundingSpec (applied allowable min_sf load capacity : ℚ) : Prop :=
  (∃ r, check_safety_factor applied allowable min_sf = .ok r ∧
    r.safety_factor = pyRound (allowable / applied) 3 ∧
    r.margin = pyRound ((allowable / applied - min_sf) / min_sf * 100) 2) ∧
  (∃ u, calculate_section_utilization load capacity = .ok u ∧
    u.utilization_ratio = pyRound (load / capacity) 4 ∧
    u.utilization_percent = pyRound (load / capacity * 100) 2 ∧
    u.reserve_capacity = pyRound (max 0 ((1 - load / capacity) * 100)) 2)

/-- Claim C6 as amended (corrected): every numeric field of the safety-factor
and utilization results is rounded to a fixed precision — utilization_ratio
to 4 places, the percent/margin/reserve magnitudes to 2 places — but
safety_factor is rounded to 3 places, not 4 as the claim states. -/
theorem C6_rounding (applied allowable min_sf load capacity : ℚ)
    (h1 : 0 < applied) (h2 : 0 < allowable) (h3 : 0 < min_sf)
    (h4 : 0 ≤ load) (h5 : 0 < capacity) :
    roundingSpec applied allowable min_sf load capacity := by
  refine ⟨⟨_, check_safety_factor_eq applied allowable min_sf h1 h2 h3,
    rfl, rfl⟩, ⟨_, calculate_section_utilization_eq load capacity h4 h5,
    rfl, rfl, rfl⟩⟩

/-- Witness for C6 at applied=3, allowable=1, min=1, load=1, capacity=3. -/
theorem C6_rounding_witness : roundingSpec 3 1 1 1 3 :=
  C6_rounding 3 1 1 1 3 (by norm_num) (by norm_num) (by norm_num)
    (by norm_num) (by norm_num)

theorem validate_deflection_inputs_ok (defl span : ℚ) (n : ℤ) (h1 : 0 ≤ defl)
    (h2 : 0 < span) (h3 : 0 < n) :
    validate_deflection_inputs defl span (n : ℚ) = .ok (defl, span, n) := by
  have hn : (0:ℚ) < (n : ℚ) := by exact_mod_cast h3
  have htr : pyTrunc ((n : ℚ)) = n := by
    rw [pyTrunc, if_pos hn.le, Rat.floor_def']
    simp
  simp only [validate_deflection_inputs, validate_non_negative_ok _ _ h1,
    validate_positive_ok _ _ h2, validate_positive_ok _ _ hn, except_ok_bind, htr]
  rfl

theorem check_deflection_serviceability_eq (defl span : ℚ) (n : ℤ) (h1 : 0 ≤ defl)
    (h2 : 0 < span) (h3 : 0 < n) :
    check_deflection_serviceability defl span (n : ℚ) = .ok
      { allowable_deflection := pyRound (span / (n : ℚ)) 2,
        actual_deflection := defl,
        is_serviceable := decide (defl ≤ span / (n : ℚ)),
        utilization := pyRound (defl / (span / (n : ℚ))) 4,
        utilization_percent := pyRound (defl / (span / (n : ℚ)) * 100) 2,
        status :=
          if decide (defl ≤ span / (n : ℚ)) then
            if defl / (span / (n : ℚ)) ≤ 8/10 then "WELL WITHIN LIMITS"
            else "WITHIN LIMITS"
          else "EXCEEDS LIMITS",
        span_length := span,
        limit_ratio := n,
        unit := "mm" } := by
  have hn : (0:ℚ) < (n : ℚ) := by exact_mod_cast h3
  have hpos : 0 < span / (n : ℚ) := div_pos h2 hn
  have hdiv : pyDiv span ((n : ℤ) : ℚ) = .ok (span / (n : ℚ)) :=
    pyDiv_ne _ _ (ne_of_gt hn)
  simp only [check_deflection_serviceability,
    validate_deflection_inputs_ok defl span n h1 h2 h3, except_ok_bind, hdiv,
    if_pos hpos]
  rfl

/-- Specification of claim C7: allowable = span / limit_ratio, the boundary
deflection = allowable counts as serviceable, and the three status bands. -/
def deflectionSpec (defl span : ℚ) (n : ℤ) : Prop :=
  ∃ r, check_deflection_serviceability defl span (n : ℚ) = .ok r ∧
    r.allowable_deflection = pyRound (span / (n : ℚ)) 2 ∧
    (r.is_serviceable = true ↔ defl ≤ span / (n : ℚ)) ∧
    r.utilization = pyRound (defl / (span / (n : ℚ))) 4 ∧
    (defl ≤ span / (n : ℚ) → defl / (span / (n : ℚ)) ≤ 8/10 →
      r.status = "WELL WITHIN LIMITS") ∧
    (defl ≤ span / (n : ℚ) → 8/10 < defl / (span / (n : ℚ)) →
      r.status = "WITHIN LIMITS") ∧
    (¬ defl ≤ span / (n : ℚ) → r.status = "EXCEEDS LIMITS")

/-- Claim C7 (confirmed): for validated actual_deflection ≥ 0, span > 0 and a
positive integer limit ratio, `check_deflection_serviceability` computes
allowable = span/ratio, is serviceable exactly when deflection ≤ allowable
(boundary inclusive), and reports WELL WITHIN LIMITS when serviceable with
utilization ≤ 0.8, WITHIN LIMITS when serviceable with utilization > 0.8,
and EXCEEDS LIMITS otherwise. -/
theorem C7_deflection_serviceability (defl span : ℚ) (n : ℤ) (h1 : 0 ≤ defl)
    (h2 : 0 < span) (h3 : 0 < n) : deflectionSpec defl span n := by
  refine ⟨_, check_deflection_serviceability_eq defl span n h1 h2 h3, rfl,
    decide_eq_true_iff, rfl, ?_, ?_, ?_⟩
  · intro hs hu
    dsimp only
    rw [if_pos (decide_eq_true hs), if_pos hu]
  · intro hs hu
    dsimp only
    rw [if_pos (decide_eq_true hs), if_neg (not_le.mpr hu)]
  · intro hs
    dsimp only
    rw [if_neg (by simpa using hs)]

/-- Witness for C7 at the boundary input deflection = allowable:
(20, 6000, 300) has allowable 20 and is serviceable. -/
theorem C7_deflection_serviceability_witness : deflectionSpec 20 6000 300 :=
  C7_deflection_serviceability 20 6000 300 (by norm_num) (by norm_num) (by norm_num)

/-- Claim C8 (confirmed): steel-grade lookup is case- and
whitespace-insensitive — `get_material_properties` gives the same outcome on
`g` as on `g` trimmed and upper-cased (the success value is identical; on
unknown grades both fail), `'  e250 '` resolves to exactly the result of
`'E250'`, and `'Fe410'` yields 250 MPa yield, 410 MPa ultimate, with the
fixed elastic modulus 200000 attached. -/
theorem C8_material_lookup :
    (∀ g : List Char, (get_material_properties g).toOption =
      (get_material_properties (pyUpper (pyStrip g))).toOption) ∧
    get_material_properties [' ', ' ', 'e', '2', '5', '0', ' '] =
      get_material_properties ['E', '2', '5', '0'] ∧
    (get_material_properties ['F', 'e', '4', '1', '0']).map
      (fun p => (p.yield_strength, p.ultimate_strength, p.elastic_modulus)) =
      .ok (250, 410, 200000) := by
  refine ⟨?_, ?_, ?_⟩
  · intro g
    have hkey : pyUpper (pyStrip (pyUpper (pyStrip g))) = pyUpper (pyStrip g) :=
      normalize_grade_idem g
    simp only [get_material_properties, validate_steel_grade, hkey]
    cases h : findKey STEEL_GRADES (pyUpper (pyStrip g)) with
    | none => simp [h, except_error_bind, Except.toOption]
    | some r => simp [h, except_ok_bind, Except.toOption]
  · rfl
  · rfl

/-- Specification of claim C9: a zero-or-negative value in any
positivity-validated slot makes the validator fail with an error message that
starts with that parameter's name, so the operation returns no result. -/
def positivityErrors (v : ℚ) (pname : String) : Prop :=
  (∃ s, validate_positive v pname = .error (pname ++ s)) ∧
  (∃ s, validate_safety_factor_inputs 1 v 1 = .error ("Allowable Stress" ++ s)) ∧
  (∃ s, validate_safety_factor_inputs 1 1 v = .error ("Minimum Safety Factor" ++ s)) ∧
  (∃ s, validate_utilization_inputs 0 v = .error ("Section Capacity" ++ s)) ∧
  (∃ s, validate_moment_inputs v 1 = .error ("Yield Strength" ++ s)) ∧
  (∃ s, validate_shear_inputs 1 v = .error ("Shear Area" ++ s)) ∧
  (∃ s, validate_deflection_inputs 0 v 300 = .error ("Span Length" ++ s))

/-- Claim C9 (confirmed): for every parameter validated as positive —
directly via `validate_positive`, or through the safety-factor, utilization,
moment, shear and deflection input validators — a zero or negative value
raises ValidationError whose message names that parameter, and the validator
yields no result tuple. -/
theorem C9_positivity_errors (v : ℚ) (pname : String) (h : v ≤ 0) :
    positivityErrors v pname := by
  have hone : (0:ℚ) < 1 := one_pos
  obtain ⟨s1, hs1⟩ := validate_positive_err v pname h
  obtain ⟨s2, hs2⟩ := validate_positive_err v "Allowable Stress" h
  obtain ⟨s3, hs3⟩ := validate_positive_err v "Minimum Safety Factor" h
  obtain ⟨s4, hs4⟩ := validate_positive_err v "Section Capacity" h
  obtain ⟨s5, hs5⟩ := validate_positive_err v "Yield Strength" h
  obtain ⟨s6, hs6⟩ := validate_positive_err v "Shear Area" h
  obtain ⟨s7, hs7⟩ := validate_positive_err v "Span Length" h
  refine ⟨⟨s1, hs1⟩, ⟨s2, ?_⟩, ⟨s3, ?_⟩, ⟨s4, ?_⟩, ⟨s5, ?_⟩, ⟨s6, ?_⟩, ⟨s7, ?_⟩⟩
  · simp only [validate_safety_factor_inputs, if_neg (one_ne_zero (α := ℚ)),
      validate_positive_ok 1 _ hone, except_ok_bind, except_pure_bind, hs2,
      except_error_bind]
  · simp only [validate_safety_factor_inputs, if_neg (one_ne_zero (α := ℚ)),
      validate_positive_ok 1 _ hone, except_ok_bind, except_pure_bind, hs3,
      except_error_bind]
  · simp only [validate_utilization_inputs, validate_non_negative_ok 0 _ le_rfl,
      except_ok_bind, hs4, except_error_bind]
  · simp only [validate_moment_inputs, hs5, except_error_bind]
  · simp only [validate_shear_inputs, validate_positive_ok 1 _ hone,
      except_ok_bind, hs6, except_error_bind]
  · simp only [validate_deflection_inputs, validate_non_negative_ok 0 _ le_rfl,
      except_ok_bind, hs7, except_error_bind]

/-- Witness for C9 at v = 0 (the zero boundary) with parameter name
"Applied Stress". -/
theorem C9_positivity_errors_witness : positivityErrors 0 "Applied Stress" :=
  C9_positivity_errors 0 "Applied Stress" le_rfl

theorem findKey_mem {α β : Type} [DecidableEq α] (l : List (α × β)) (k : α) (v : β)
    (h : findKey l k = some v) : (k, v) ∈ l := by
  induction l with
  | nil => exact absurd h (by simp [findKey])
  | cons p rest ih =>
    obtain ⟨k0, v0⟩ := p
    rw [findKey] at h
    split at h
    · next heq =>
      injection h with hv
      subst heq
      subst hv
      exact List.mem_cons_self _ _
    · exact List.mem_cons_of_mem _ (ih h)

theorem findKey_gradeTable_lt (g : List Char) (r : ℕ)
    (h : findKey gradeTable g = some r) : r < 8 := by
  have hm := findKey_mem gradeTable g r h
  simp only [gradeTable, List.mem_cons, List.not_mem_nil, or_false,
    Prod.mk.injEq] at hm
  rcases hm with ⟨-, h⟩ | ⟨-, h⟩ | ⟨-, h⟩ | ⟨-, h⟩ | ⟨-, h⟩ | ⟨-, h⟩ | ⟨-, h⟩ | ⟨-, h⟩ <;>
    omega

theorem initHeap_length : initHeap.cells.length = 8 := rfl

theorem dictGet_dictSet_same (d : Dict) (k : String) (v : PyVal) :
    dictGet (dictSet d k v) k = some v := by
  induction d with
  | nil => simp [dictGet, dictSet, findKey]
  | cons p rest ih =>
    obtain ⟨k0, v0⟩ := p
    rw [dictSet]
    split
    · simp [dictGet, findKey]
    · next hne =>
      rw [dictGet, findKey, if_neg hne]
      exact ih

theorem dictGet_dictSet_other (d : Dict) (k k2 : String) (v : PyVal)
    (h : k2 ≠ k) : dictGet (dictSet d k v) k2 = dictGet d k2 := by
  induction d with
  | nil =>
    rw [dictGet, dictSet, findKey, if_neg (fun he => h he.symm)]
    rfl
  | cons p rest ih =>
    obtain ⟨k0, v0⟩ := p
    rw [dictSet]
    split
    · next heq =>
      subst heq
      rw [dictGet, findKey, if_neg (fun he => h he.symm), dictGet, findKey,
        if_neg (fun he => h he.symm)]
    · rw [dictGet, findKey, dictGet, findKey]
      split
      · rfl
      · exact ih

theorem validate_steel_grade_ok_form (g n : List Char)
    (h : validate_steel_grade g = .ok n) : n = pyUpper (pyStrip g) := by
  rw [validate_steel_grade] at h
  split at h
  · exact (Except.ok.inj h).symm
  · exact absurd h (by simp)

theorem gmp_heap_eq (hp : Heap) (g : List Char) (ref : ℕ) (d : Dict)
    (hvg : validate_steel_grade g = .ok (pyUpper (pyStrip g)))
    (href : findKey gradeTable (pyUpper (pyStrip g)) = some ref)
    (hd : hp.cells[ref]? = some d) :
    get_material_properties_heap hp g = .ok (hp.cells.length,
      ⟨hp.cells ++ [dictSet (dictSet d "grade"
          (.strVal (String.mk (pyUpper (pyStrip g)))))
        "elastic_modulus" (.intVal ELASTIC_MODULUS)]⟩) := by
  rw [get_material_properties_heap, hvg]
  dsimp only
  rw [href]
  dsimp only
  rw [hd]

/-- Specification of claim C10: after `get_material_properties` runs on the
initial heap, (a) every pre-existing cell — in particular every
`STEEL_GRADES` entry — is unchanged, (b) the returned dict is a fresh copy of
the looked-up table entry with the `grade` and `elastic_modulus` keys added
and readable, and (c) a second call with the same grade succeeds and returns
a dict with equal contents, again leaving the table cells unchanged. -/
def materialFrameSpec (g : List Char) (r1 : ℕ) (h1 : Heap) : Prop :=
  (∀ i, i < initHeap.cells.length → h1.cells[i]? = initHeap.cells[i]?) ∧
  (∃ d ref, findKey gradeTable (pyUpper (pyStrip g)) = some ref ∧
    initHeap.cells[ref]? = some d ∧
    h1.cells[r1]? = some (dictSet (dictSet d "grade"
        (.strVal (String.mk (pyUpper (pyStrip g)))))
      "elastic_modulus" (.intVal ELASTIC_MODULUS)) ∧
    dictGet (dictSet (dictSet d "grade"
        (.strVal (String.mk (pyUpper (pyStrip g)))))
      "elastic_modulus" (.intVal ELASTIC_MODULUS)) "grade" =
        some (.strVal (String.mk (pyUpper (pyStrip g)))) ∧
    dictGet (dictSet (dictSet d "grade"
        (.strVal (String.mk (pyUpper (pyStrip g)))))
      "elastic_modulus" (.intVal ELASTIC_MODULUS)) "elastic_modulus" =
        some (.intVal ELASTIC_MODULUS)) ∧
  (∃ r2 h2, get_material_properties_heap h1 g = .ok (r2, h2) ∧
    h2.cells[r2]? = h1.cells[r1]? ∧
    ∀ i, i < initHeap.cells.length → h2.cells[i]? = initHeap.cells[i]?)

/-- Claim C10 (confirmed): `get_material_properties` never mutates the global
`STEEL_GRADES` table — it allocates a copy of the entry, adds the `grade` and
`elastic_modulus` keys to the copy only, and repeated calls with the same
normalized grade return dicts with equal contents. -/
theorem C10_no_mutation (g : List Char) (r1 : ℕ) (h1 : Heap)
    (hok : get_material_properties_heap initHeap g = .ok (r1, h1)) :
    materialFrameSpec g r1 h1 := by
  rw [get_material_properties_heap] at hok
  cases hval : validate_steel_grade g with
  | error e =>
    rw [hval] at hok
    exact absurd hok (by simp)
  | ok grade =>
    have hgr := validate_steel_grade_ok_form g grade hval
    subst hgr
    rw [hval] at hok
    dsimp only at hok
    cases href : findKey gradeTable (pyUpper (pyStrip g)) with
    | none =>
      rw [href] at hok
      exact absurd hok (by simp)
    | some ref =>
      rw [href] at hok
      dsimp only at hok
      have hlt : ref < 8 := findKey_gradeTable_lt _ _ href
      have hlt8 : ref < initHeap.cells.length := by rw [initHeap_length]; exact hlt
      obtain ⟨d, hd⟩ : ∃ d, initHeap.cells[ref]? = some d :=
        ⟨_, List.getElem?_eq_getElem hlt8⟩
      rw [hd] at hok
      dsimp only at hok
      have hpair := Except.ok.inj hok
      have hr1 : initHeap.cells.length = r1 := congrArg Prod.fst hpair
      have hh1 := congrArg Prod.snd hpair
      subst hr1
      subst hh1
      dsimp only
      have hframe : ∀ i, i < initHeap.cells.length →
          (initHeap.cells ++
            [dictSet (dictSet d "grade" (.strVal (String.mk (pyUpper (pyStrip g)))))
              "elastic_modulus" (.intVal ELASTIC_MODULUS)])[i]? = initHeap.cells[i]? :=
        fun i hi => List.getElem?_append_left hi
      have hd2 : (initHeap.cells ++
          [dictSet (dictSet d "grade" (.strVal (String.mk (pyUpper (pyStrip g)))))
            "elastic_modulus" (.intVal ELASTIC_MODULUS)])[ref]? = some d := by
        rw [List.getElem?_append_left hlt8]
        exact hd
      have hcall2 := gmp_heap_eq
        ⟨initHeap.cells ++
          [dictSet (dictSet d "grade" (.strVal (String.mk (pyUpper (pyStrip g)))))
            "elastic_modulus" (.intVal ELASTIC_MODULUS)]⟩ g ref d hval href hd2
      refine ⟨hframe, ⟨d, ref, href, hd, ?_, ?_, ?_⟩, _, _, hcall2, ?_, ?_⟩
      · exact List.getElem?_concat_length _ _
      · rw [dictGet_dictSet_other _ _ _ _ (by decide), dictGet_dictSet_same]
      · exact dictGet_dictSet_same _ _ _
      · dsimp only
        rw [List.getElem?_concat_length, List.getElem?_concat_length]
      · intro i hi
        dsimp only
        rw [List.getElem?_append_left, hframe i hi]
        rw [List.length_append]
        omega

/-- The dict contents `get_material_properties('E250')` returns: the E250
entry of the table with `grade` and `elastic_modulus` appended. -/
def E250ResultDict : Dict :=
  [("yield_strength", .intVal 250), ("ultimate_strength", .intVal 410),
   ("elongation", .intVal 23), ("description", .strVal "Mild Steel (Standard)"),
   ("grade", .strVal "E250"), ("elastic_modulus", .intVal 200000)]

/-- Witness for C10: the call on grade 'E250' from the initial heap. -/
theorem C10_no_mutation_witness :
    materialFrameSpec ['E', '2', '5', '0'] 8 ⟨initHeap.cells ++ [E250ResultDict]⟩ :=
  C10_no_mutation ['E', '2', '5', '0'] 8 ⟨initHeap.cells ++ [E250ResultDict]⟩ (by rfl)
